import Mathlib

/-!
Verification of the pereval submission backend (`db_manager.py`, `main.py`).

The program stores mountain-pass submission records in one table
(`pereval_added`): an integer id, a creation timestamp, a JSON document
column (`raw_data`), a JSON image-list column (`images`) and a moderation
`status`.  `db_manager.py` implements create / point lookup /
lookup-by-submitter-email / status-gated merge-update over this table;
`main.py` is the FastAPI layer on top of it.

The embedding models JSON values (`JVal`), Python dicts as
insertion-ordered association lists (`Dict`), the table as a list of rows
(`DB`), and each operation of `DatabaseManager` and of the API handlers as
a pure function over these.  Database operations are modelled under a live
connection: the `connect`/`disconnect` machinery of `db_manager.py`
(lines 26-68) only manages the psycopg2 connection and every operation
starts by reconnect-on-demand; no claim concerns connectivity failures.
The driver decodes the JSON columns to Python values, so stored documents
round-trip structurally.
-/

/-- JSON values as stored in the `raw_data` and `images` columns and as
passed around by the Python code (strings, numbers, null, arrays,
objects). -/
inductive JVal where
  | s (v : String)
  | n (v : Int)
  | null
  | arr (elems : List JVal)
  | obj (fields : List (String × JVal))
  deriving Repr

/-- A Python dict with JSON-compatible values: an association list in key
insertion order (Python dicts preserve insertion order and have unique
keys). -/
abbrev Dict := List (String × JVal)

/-- Python `d.get(k)` / `d[k]`: value of the first binding of `k`. -/
def dGet? (d : Dict) (k : String) : Option JVal :=
  (d.find? (fun kv => kv.1 == k)).map (fun kv => kv.2)

/-- Python `d.get(k, v0)`. -/
def dGetD (d : Dict) (k : String) (v0 : JVal) : JVal :=
  (dGet? d k).getD v0

/-- Python `d[k] = v`: replace the binding in place when the key exists,
append it otherwise (Python dict assignment keeps the key position). -/
def dSet (d : Dict) (k : String) (v : JVal) : Dict :=
  match d with
  | [] => [(k, v)]
  | kv :: rest => if kv.1 == k then (k, v) :: rest else kv :: dSet rest k v

/-- Python `k in d`. -/
def dHasKey (d : Dict) (k : String) : Bool :=
  (dGet? d k).isSome

/-- JSON serialization of a value, as used by the semantics of the
PostgreSQL `->>` operator on non-scalar values.  String escaping is not
modelled (no document in scope stores quotes inside a submitter email). -/
def jdump : JVal → String
  | .s v => "\x22" ++ v ++ "\x22"
  | .n v => toString v
  | .null => "null"
  | .arr l => "[" ++ String.intercalate ", " (l.attach.map (fun x => jdump x.1)) ++ "]"
  | .obj l => "\x7b" ++ String.intercalate ", "
      (l.attach.map (fun x => "\x22" ++ x.1.1 ++ "\x22: " ++ jdump x.1.2)) ++ "\x7d"
decreasing_by
  · simp_wf
    have := List.sizeOf_lt_of_mem x.2
    omega
  · simp_wf
    have := List.sizeOf_lt_of_mem x.2
    obtain ⟨⟨k, v⟩, hx⟩ := x
    simp_all
    omega

/-- PostgreSQL `->> 'k'` applied to a present JSON value: a JSON string
yields its contents, a number its text, JSON null yields SQL NULL, and
containers their serialized text. -/
def jvalAsText : JVal → Option String
  | .s v => some v
  | .n v => some (toString v)
  | .null => none
  | v => some (jdump v)

/-- Model of Python `str.replace`: replace every non-overlapping
occurrence of the pattern, scanning left to right and continuing after
each replacement.  The fuel argument (the source length, consumed at
least once per step, so it never runs out) keeps the recursion
structural so that the model reduces definitionally, which the core
`String.replace` does not; the only pattern this program replaces is
the nonempty string `Z`. -/
def replaceAux (p1 : Char) (ps rep : List Char) : Nat → List Char → List Char
  | _, [] => []
  | 0, l => l
  | n + 1, c :: rest =>
    if c = p1 ∧ ps.isPrefixOf rest then
      rep ++ replaceAux p1 ps rep n (rest.drop ps.length)
    else c :: replaceAux p1 ps rep n rest

def strReplace (s pat rep : String) : String :=
  match pat.data with
  | [] => s
  | p1 :: ps => String.mk (replaceAux p1 ps rep.data s.data.length s.data)

/-! ### Model of the Python `datetime` handling

`db_manager.py` parses `add_time` strings with `datetime.fromisoformat` /
`strptime` (lines 85-101) and re-serializes merged `add_time` values with
`isoformat(timespec='seconds')` (lines 210-221).  The model below covers
the ISO-8601 subset those functions accept in this program:
`YYYY-MM-DD`, optionally followed by a separator character and
`HH[:MM[:SS[.fff[fff]]]]`, optionally followed by a `+HH:MM`/`-HH:MM`
offset (the code first rewrites a trailing `Z` to `+00:00` itself). -/

/-- A parsed Python `datetime`: calendar fields, microseconds, and an
optional UTC offset (sign, hours, minutes). -/
structure PyDT where
  year : Nat
  month : Nat
  day : Nat
  hour : Nat
  minute : Nat
  second : Nat
  micro : Nat
  offset : Option (Bool × Nat × Nat)
  deriving Repr, DecidableEq

def digitVal? (c : Char) : Option Nat :=
  if c.isDigit then some (c.toNat - 48) else none

def twoDigits? : List Char → Option Nat
  | [c1, c2] => do
    let d1 ← digitVal? c1
    let d2 ← digitVal? c2
    pure (d1 * 10 + d2)
  | _ => none

/-- Parse the 10-character `YYYY-MM-DD` prefix, returning the remainder. -/
def parseDate? (cs : List Char) : Option (Nat × Nat × Nat × List Char) :=
  match cs with
  | y1 :: y2 :: y3 :: y4 :: '-' :: m1 :: m2 :: '-' :: d1 :: d2 :: rest => do
    let a ← digitVal? y1
    let b ← digitVal? y2
    let c ← digitVal? y3
    let d ← digitVal? y4
    let mo ← twoDigits? [m1, m2]
    let dy ← twoDigits? [d1, d2]
    if 1 ≤ mo ∧ mo ≤ 12 ∧ 1 ≤ dy ∧ dy ≤ 31 then
      pure (a * 1000 + b * 100 + c * 10 + d, mo, dy, rest)
    else none
  | _ => none

/-- Split a time string at the first `+` or `-`, which starts the UTC
offset. -/
def splitAtSign : List Char → List Char × List Char
  | [] => ([], [])
  | c :: rest =>
    if c = '+' ∨ c = '-' then ([], c :: rest)
    else
      let p := splitAtSign rest
      (c :: p.1, p.2)

/-- Parse `HH[:MM[:SS[.fff[fff]]]]` (the exact shapes Python
`fromisoformat` accepts), returning hour, minute, second, microsecond. -/
def parseTimePart? (cs : List Char) : Option (Nat × Nat × Nat × Nat) := do
  let comps ←
    match cs with
    | [h1, h2] => some ([h1, h2], ([] : List Char), ([] : List Char), ([] : List Char))
    | [h1, h2, ':', m1, m2] => some ([h1, h2], [m1, m2], [], [])
    | [h1, h2, ':', m1, m2, ':', s1, s2] => some ([h1, h2], [m1, m2], [s1, s2], [])
    | [h1, h2, ':', m1, m2, ':', s1, s2, '.', f1, f2, f3] =>
        some ([h1, h2], [m1, m2], [s1, s2], [f1, f2, f3])
    | [h1, h2, ':', m1, m2, ':', s1, s2, '.', f1, f2, f3, f4, f5, f6] =>
        some ([h1, h2], [m1, m2], [s1, s2], [f1, f2, f3, f4, f5, f6])
    | _ => none
  let (hc, mc, sc, fc) := comps
  let h ← twoDigits? hc
  let mi ← if mc.isEmpty then some 0 else twoDigits? mc
  let sec ← if sc.isEmpty then some 0 else twoDigits? sc
  let micro ←
    match fc with
    | [] => some 0
    | [f1, f2, f3] => do
      let a ← digitVal? f1
      let b ← digitVal? f2
      let c ← digitVal? f3
      pure ((a * 100 + b * 10 + c) * 1000)
    | [f1, f2, f3, f4, f5, f6] => do
      let a ← digitVal? f1
      let b ← digitVal? f2
      let c ← digitVal? f3
      let d ← digitVal? f4
      let e ← digitVal? f5
      let f ← digitVal? f6
      pure (a * 100000 + b * 10000 + c * 1000 + d * 100 + e * 10 + f)
    | _ => none
  if h < 24 ∧ mi < 60 ∧ sec < 60 then pure (h, mi, sec, micro) else none

/-- Parse an optional `+HH:MM` / `-HH:MM` UTC offset. -/
def parseOffset? : List Char → Option (Option (Bool × Nat × Nat))
  | [] => some none
  | sign :: rest =>
    if sign = '+' ∨ sign = '-' then
      match rest with
      | [o1, o2, ':', o3, o4] => do
        let oh ← twoDigits? [o1, o2]
        let om ← twoDigits? [o3, o4]
        if oh < 24 ∧ om < 60 then pure (some (sign = '+', oh, om)) else none
      | _ => none
    else none

/-- Model of `datetime.fromisoformat` on the ISO-8601 subset this program
produces (the Python version in scope accepts any single character as the
date/time separator). -/
def fromisoformat? (t : String) : Option PyDT := do
  let (y, mo, dy, rest) ← parseDate? t.data
  match rest with
  | [] => pure ⟨y, mo, dy, 0, 0, 0, 0, none⟩
  | _sep :: timeChars =>
    let p := splitAtSign timeChars
    let (h, mi, sec, micro) ← parseTimePart? p.1
    let off ← parseOffset? p.2
    pure ⟨y, mo, dy, h, mi, sec, micro, off⟩

def pad2 (v : Nat) : String :=
  if v < 10 then "0" ++ toString v else toString v

def pad4 (v : Nat) : String :=
  if v < 10 then "000" ++ toString v
  else if v < 100 then "00" ++ toString v
  else if v < 1000 then "0" ++ toString v
  else toString v

def pad6 (v : Nat) : String :=
  let t := toString v
  String.mk (List.replicate (6 - t.length) '0') ++ t

def offsetText : Option (Bool × Nat × Nat) → String
  | none => ""
  | some (pos, oh, om) => (if pos then "+" else "-") ++ pad2 oh ++ ":" ++ pad2 om

/-- `datetime.isoformat(timespec='seconds')`. -/
def isoformatSeconds (dt : PyDT) : String :=
  pad4 dt.year ++ "-" ++ pad2 dt.month ++ "-" ++ pad2 dt.day ++ "T" ++
    pad2 dt.hour ++ ":" ++ pad2 dt.minute ++ ":" ++ pad2 dt.second ++ offsetText dt.offset

/-- `datetime.isoformat()` with the default timespec (microseconds shown
only when nonzero), used when the stored timestamp column is read back. -/
def isoformatFull (dt : PyDT) : String :=
  pad4 dt.year ++ "-" ++ pad2 dt.month ++ "-" ++ pad2 dt.day ++ "T" ++
    pad2 dt.hour ++ ":" ++ pad2 dt.minute ++ ":" ++ pad2 dt.second ++
    (if dt.micro = 0 then "" else "." ++ pad6 dt.micro) ++ offsetText dt.offset

/-- Model of `datetime.strptime(t, "%Y-%m-%d %H:%M:%S")`: exactly 19
characters, a space separator, no fraction and no offset. -/
def strptimeSpace? (t : String) : Option PyDT :=
  match fromisoformat? t with
  | some dt =>
    if t.length = 19 ∧ (t.data.drop 10).head? = some ' ' ∧ dt.micro = 0 ∧ dt.offset = none
    then some dt else none
  | none => none

/-! ### The merge-update engine (`DatabaseManager.update_pereval`, lines 195-227) -/

/-- Lines 196-204 of `db_manager.py`: copy the current document and
overwrite every field of the patch except `user` into it
(`for key, value in new_data.items(): if key != 'user': merged[key] = value`). -/
def mergeNonUser (current patch : Dict) : Dict :=
  patch.foldl (fun m kv => if kv.1 == "user" then m else dSet m kv.1 kv.2) current

/-- Lines 196-208: the merge with the submitter block forced back to the
stored one (`merged_raw_data['user'] = user_data_from_db`, where
`user_data_from_db = merged_raw_data.get('user', {})` was captured from
the copy of the current document before the loop). -/
def mergeRawData (current patch : Dict) : Dict :=
  let user_data_from_db := dGetD current "user" (.obj [])
  dSet (mergeNonUser current patch) "user" user_data_from_db

/-- Lines 210-221: re-normalize a string `add_time` in the merged document
to `isoformat(timespec='seconds')` when it parses as ISO (after rewriting
`Z` to `+00:00`), leaving it unchanged otherwise.  The
`isinstance(..., datetime)` branch is unreachable here: values decoded
from the JSON column are never `datetime` objects. -/
def normalizeAddTime (d : Dict) : Dict :=
  match dGet? d "add_time" with
  | some (.s t) =>
    match fromisoformat? (strReplace t "Z" "+00:00") with
    | some dt => dSet d "add_time" (.s (isoformatSeconds dt))
    | none => d
  | _ => d

/-- The full document produced by `update_pereval` for the `raw_data`
column (merge then `add_time` normalization, lines 196-223). -/
def updatedRawData (current patch : Dict) : Dict :=
  normalizeAddTime (mergeRawData current patch)

/-! ### The record store -/

/-- One row of `public.pereval_added`.  `date_added` is the stored
timestamp as read back by `isoformat()`; `images` holds the JSON written
to the image-list column (always of the shape `{"images": [...]}`). -/
structure Row where
  date_added : String
  raw_data : Dict
  images : JVal
  status : String

/-- The table: rows in natural storage order, keyed by id, plus the next
id the sequence will assign. -/
structure DB where
  rows : List (Nat × Row)
  nextId : Nat

/-- `SELECT ... WHERE id = i` (point lookup). -/
def DB.find? (db : DB) (i : Nat) : Option Row :=
  (db.rows.find? (fun p => p.1 == i)).map (fun p => p.2)

/-- `UPDATE ... WHERE id = i`: rewrite every row with that id. -/
def DB.setRow (db : DB) (i : Nat) (f : Row → Row) : DB :=
  ⟨db.rows.map (fun p => if p.1 == i then (p.1, f p.2) else p), db.nextId⟩

/-- The list stored inside a row's image-list column. -/
def imagesColumnList (r : Row) : Option JVal :=
  match r.images with
  | .obj f => dGet? f "images"
  | _ => none

/-- An external moderation write, as the repository's own tests perform it
(`UPDATE pereval_added SET status = ... WHERE id = ...`,
`test_db_manager.py` lines 133-135). -/
def setStatus (db : DB) (i : Nat) (st : String) : DB :=
  db.setRow i (fun r => { r with status := st })

namespace DatabaseManager

/-- Lines 82-83 of `db_manager.py`: the value written to the image-list
column, `json.dumps({"images": data.get('images', [])})`. -/
def imagesColumnOf (d : Dict) : JVal :=
  .obj [("images", dGetD d "images" (.arr []))]

/-- Lines 85-101 of `db_manager.py` composed with the `isoformat()`
read-back of the timestamp column: parse `add_time` (`Z` rewritten, space
format via `strptime`, otherwise `fromisoformat`), falling back to the
current time `now` when it is absent, falsy, not a string, or does not
parse. -/
def dateAddedOf (d : Dict) (now : String) : String :=
  match dGet? d "add_time" with
  | some (.s t) =>
    if t = "" then now
    else if t.data.contains 'Z' then
      match fromisoformat? (strReplace t "Z" "+00:00") with
      | some dt => isoformatFull dt
      | none => now
    else if t.data.contains ' ' then
      match strptimeSpace? t with
      | some dt => isoformatFull dt
      | none => now
    else
      match fromisoformat? t with
      | some dt => isoformatFull dt
      | none => now
  | some _ => now
  | none => now

/-- `DatabaseManager.add_pereval` (lines 70-127): insert a new row with
the full submission as `raw_data`, the wrapped image list as `images`,
status `new`, and return the assigned id. -/
def add_pereval (db : DB) (data : Dict) (now : String) : DB × Nat :=
  (⟨db.rows ++ [(db.nextId,
      ⟨dateAddedOf data now, data, imagesColumnOf data, "new"⟩)],
    db.nextId + 1⟩, db.nextId)

/-- The dict built by `get_pereval_by_id` (lines 148-156).  Note the image
column is returned under the key `images_json`, not `images`. -/
def perevalDataOf (i : Nat) (r : Row) : Dict :=
  [("id", .n i), ("date_added", .s r.date_added), ("raw_data", .obj r.raw_data),
   ("images_json", r.images), ("status", .s r.status)]

/-- `DatabaseManager.get_pereval_by_id` (lines 129-164). -/
def get_pereval_by_id (db : DB) (i : Nat) : Option Dict :=
  (db.find? i).map (perevalDataOf i)

/-- The not-found message of `update_pereval` (line 187). -/
def notFoundMsg (i : Nat) : String :=
  "Перевал с ID " ++ (toString i ++ " не найден.")

/-- The status-gate rejection message of `update_pereval` (line 193). -/
def rejectedMsg (st : String) : String :=
  "Редактирование запрещено. Статус перевала: \x27" ++
    (st ++ "\x27. Разрешено только для \x27new\x27.")

/-- The success message of `update_pereval` (line 237). -/
def updatedMsg : String := "Запись успешно обновлена."

/-- First storage round trip of `update_pereval` (lines 180-227): the
`SELECT status, raw_data ... WHERE id = %s`, the status gate, and the pure
computation of the merged document and image column.  Returns the error
result the function would return, or the values it will write. -/
def updateSelectAndMerge (db : DB) (i : Nat) (new_data : Dict) :
    Except (Nat × String) (Dict × JVal) :=
  match db.find? i with
  | none => .error (0, notFoundMsg i)
  | some row =>
    if row.status ≠ "new" then .error (0, rejectedMsg row.status)
    else .ok (updatedRawData row.raw_data new_data, imagesColumnOf new_data)

/-- Second storage round trip of `update_pereval` (lines 230-235): the
write `UPDATE public.pereval_added SET raw_data = %s, images = %s WHERE
id = %s` — conditioned on the id only, not on the status. -/
def updateWrite (db : DB) (i : Nat) (raw : Dict) (img : JVal) : DB :=
  db.setRow i (fun r => { r with raw_data := raw, images := img })

/-- `DatabaseManager.update_pereval` (lines 166-246): the sequential
composition of the two round trips, returning `(state, message)`. -/
def update_pereval (db : DB) (i : Nat) (new_data : Dict) : DB × Nat × String :=
  match updateSelectAndMerge db i new_data with
  | .error e => (db, e)
  | .ok (raw, img) => (updateWrite db i raw img, 1, updatedMsg)

/-- The SQL filter of `get_perevals_by_email` (line 261),
`raw_data->'user'->>'email'`: NULL unless `user` is present and an object
with an `email` key, otherwise that value as text. -/
def userEmailText (r : Row) : Option String :=
  match dGet? r.raw_data "user" with
  | some (.obj u) => (dGet? u "email").bind jvalAsText
  | _ => none

/-- `DatabaseManager.get_perevals_by_email` (lines 248-284): all rows
matching the email filter, in natural storage order, shaped like
`get_pereval_by_id` rows. -/
def get_perevals_by_email (db : DB) (email : String) : List Dict :=
  (db.rows.filter (fun p => userEmailText p.2 == some email)).map
    (fun p => perevalDataOf p.1 p.2)

end DatabaseManager

/-! ### The FastAPI layer (`main.py`) -/

namespace MainApi

/-- Result of an API handler: a JSON body returned with 200, or a raised
`HTTPException` with a status code and a detail value. -/
inductive ApiResult where
  | ok (body : Dict)
  | httpError (code : Nat) (detail : JVal)
  deriving Repr

/-- Result of the PATCH handler: a plain `{state, message}` body or a
raised `HTTPException` whose detail is `{state, message}`. -/
inductive PatchResult where
  | ok (state : Nat) (message : String)
  | httpError (code : Nat) (state : Nat) (message : String)
  deriving Repr, DecidableEq

/-- `submit_data` (`main.py` lines 64-126).  Lines 76-93 shape the
validated request into `submit_data_dict` and pop the image list, and
line 98 calls `db_manager.add_pereval(submit_data_dict, images_data)` —
two arguments for a method declared with one data parameter
(`add_pereval(self, data)`), so Python raises `TypeError` before any
insert; the `except Exception` at line 108 (the duplicate-key text test at
line 111 does not match a `TypeError`) turns it into the 500 response of
lines 117-120. -/
def submit_data (db : DB) (_data : Dict) : DB × ApiResult :=
  (db, .httpError 500 (.obj [("state", .n 0),
    ("message", .s "Что-то пошло не так на сервере.")]))

/-- Lines 161-162 of `main.py`: an image entry is kept only when it is a
dict with both a `data` and a `title` key, and is reshaped to exactly
those two fields. -/
def shapeImage? (img : JVal) : Option JVal :=
  match img with
  | .obj f =>
    match dGet? f "data", dGet? f "title" with
    | some d, some t => some (.obj [("data", d), ("title", t)])
    | _, _ => none
  | _ => none

/-- Lines 152-167 of `main.py`: reshape the image value read from the
store response.  A list is filtered entry by entry; any other value
(including the falsy default `[]` and non-list values) yields the empty
list.  The `json.loads` branch for string payloads is unreachable here:
the driver decodes JSON columns before they reach this code. -/
def formatImages : JVal → List JVal
  | .arr l => l.filterMap shapeImage?
  | _ => []

/-- The GET `/submitData/{pereval_id}` handler (`main.py` lines 129-186).
Note line 152 reads `pereval_data.get('images', [])` while the store
returns the image column under the key `images_json`, so the lookup
always yields the default `[]`. -/
def get_pereval_by_id (db : DB) (i : Nat) : ApiResult :=
  match DatabaseManager.get_pereval_by_id db i with
  | none => .httpError 404 (.s "Перевал не найден.")
  | some pereval_data =>
    match dGet? pereval_data "raw_data" with
    | some (.obj raw) =>
      if raw.isEmpty then .httpError 404 (.s "Данные перевала неполные.")
      else
        let rd := dSet raw "id" (dGetD pereval_data "id" .null)
        let rd := dSet rd "date_added" (dGetD pereval_data "date_added" .null)
        let rd := dSet rd "status" (dGetD pereval_data "status" .null)
        let images_from_db := dGetD pereval_data "images" (.arr [])
        .ok (dSet rd "images" (.arr (formatImages images_from_db)))
    | _ => .httpError 404 (.s "Данные перевала неполные.")

/-- The status-gate message of the PATCH handler (`main.py` line 216). -/
def statusRejectMsg (st : String) : String :=
  "Редактирование запрещено. Статус перевала: \x27" ++ st ++
    "\x27. Разрешено только для \x27new\x27."

/-- The PATCH `/submitData/{pereval_id}` handler (`main.py` lines
189-252), taking the already-validated, alias-keyed,
`exclude_unset`-dumped patch dict.  The status gate (line 210) runs
before the submitter check (line 224); a present but non-string status
never occurs, since the store always returns a string there.  When both
checks pass, line 235 calls
`db_manager.update_pereval(pereval_id, update_data_dict, images_to_update)`
— three arguments for the two-parameter method — so Python raises
`TypeError` and the `except Exception` at line 247 produces the 500
response. -/
def patch_pereval (db : DB) (i : Nat) (patch : Dict) : DB × PatchResult :=
  match DatabaseManager.get_pereval_by_id db i with
  | none => (db, .httpError 404 0 "Перевал не найден.")
  | some pereval_data =>
    let st := match dGet? pereval_data "status" with
      | some (.s v) => v
      | _ => "неизвестно"
    if st ≠ "new" then (db, .ok 0 (statusRejectMsg st))
    else if dHasKey patch "user" then
      (db, .httpError 400 0 "Изменение пользовательских данных запрещено.")
    else
      (db, .httpError 500 0 "Внутренняя ошибка сервера при обновлении перевала.")

end MainApi

/-! ### Sample values used by concrete witnesses and counterexamples -/

def wUser : JVal :=
  .obj [("email", .s "test@example.com"), ("fam", .s "Тестов"),
        ("name", .s "Тест"), ("phone", .s "+71234567890")]

def wImage : JVal := .obj [("data", .s "base64_data_1"), ("title", .s "Фото 1")]

/-- The spec-side predicate of C9: the record's document has a `user`
object whose `email` field is exactly the given string. -/
def submitterEmailIs (r : Row) (email : String) : Bool :=
  match dGet? r.raw_data "user" with
  | some (.obj u) =>
    match dGet? u "email" with
    | some (.s e) => e == email
    | _ => false
  | _ => false

/-- A row is email-well-formed when its `user.email` field, if present at
all, is a JSON string — true of every document the validation layer lets
through. -/
def rowEmailWellFormed (r : Row) : Bool :=
  match dGet? r.raw_data "user" with
  | some (.obj u) =>
    match dGet? u "email" with
    | some (.s _) => true
    | some _ => false
    | none => true
  | _ => true

/-! ### Dictionary and store lemmas -/

theorem dGet?_nil (k : String) : dGet? [] k = none := rfl

theorem dGet?_cons (kv : String × JVal) (rest : Dict) (k : String) :
    dGet? (kv :: rest) k = if kv.1 = k then some kv.2 else dGet? rest k := by
  by_cases h : kv.1 = k
  · rw [if_pos h]
    unfold dGet?
    rw [List.find?_cons_of_pos _ (by simp [h])]
    rfl
  · rw [if_neg h]
    unfold dGet?
    rw [List.find?_cons_of_neg _ (by simp [h])]

theorem dSet_cons (kv : String × JVal) (rest : Dict) (k : String) (v : JVal) :
    dSet (kv :: rest) k v
      = if kv.1 = k then (k, v) :: rest else kv :: dSet rest k v := by
  by_cases h : kv.1 = k <;> simp [dSet, h]

theorem dGet?_dSet_self (d : Dict) (k : String) (v : JVal) :
    dGet? (dSet d k v) k = some v := by
  induction d with
  | nil => simp [dSet, dGet?_cons]
  | cons kv rest ih =>
    rw [dSet_cons]
    by_cases h : kv.1 = k
    · rw [if_pos h, dGet?_cons, if_pos rfl]
    · rw [if_neg h, dGet?_cons, if_neg h]
      exact ih

theorem dGet?_dSet_ne (d : Dict) (k q : String) (v : JVal) (h : q ≠ k) :
    dGet? (dSet d k v) q = dGet? d q := by
  induction d with
  | nil =>
    rw [show dSet [] k v = [(k, v)] from rfl, dGet?_cons, if_neg (Ne.symm h)]
  | cons kv rest ih =>
    rw [dSet_cons]
    by_cases hk : kv.1 = k
    · rw [if_pos hk, dGet?_cons, dGet?_cons, if_neg (Ne.symm h),
        if_neg (fun hq => h (hq.symm.trans hk))]
    · rw [if_neg hk, dGet?_cons, dGet?_cons, ih]

theorem dHasKey_eq_false_of_not_mem (d : Dict) (k : String)
    (h : k ∉ d.map Prod.fst) : dHasKey d k = false := by
  induction d with
  | nil => rfl
  | cons kv rest ih =>
    simp only [List.map_cons, List.mem_cons] at h
    push_neg at h
    have h1 : kv.1 ≠ k := fun hh => h.1 hh.symm
    simp only [dHasKey, dGet?_cons, h1, if_false]
    exact ih h.2

theorem dHasKey_cons_false (kv : String × JVal) (rest : Dict) (k : String)
    (h : dHasKey (kv :: rest) k = false) :
    kv.1 ≠ k ∧ dHasKey rest k = false := by
  by_cases hk : kv.1 = k
  · simp [dHasKey, dGet?_cons, hk] at h
  · exact ⟨hk, by simpa [dHasKey, dGet?_cons, hk] using h⟩

theorem mergeNonUser_cons (c : Dict) (kv : String × JVal) (t : Dict) :
    mergeNonUser c (kv :: t)
      = mergeNonUser (if kv.1 = "user" then c else dSet c kv.1 kv.2) t := by
  by_cases h : kv.1 = "user" <;> simp [mergeNonUser, h]

theorem dGet?_mergeNonUser_user (c p : Dict) :
    dGet? (mergeNonUser c p) "user" = dGet? c "user" := by
  induction p generalizing c with
  | nil => rfl
  | cons kv t ih =>
    rw [mergeNonUser_cons]
    by_cases h : kv.1 = "user"
    · rw [if_pos h]
      exact ih c
    · rw [if_neg h, ih (dSet c kv.1 kv.2)]
      exact dGet?_dSet_ne c kv.1 "user" kv.2 (Ne.symm h)

theorem dGet?_mergeNonUser_not_has (c p : Dict) (k : String)
    (h : dHasKey p k = false) : dGet? (mergeNonUser c p) k = dGet? c k := by
  induction p generalizing c with
  | nil => rfl
  | cons kv t ih =>
    obtain ⟨hk, ht⟩ := dHasKey_cons_false kv t k h
    rw [mergeNonUser_cons]
    by_cases hu : kv.1 = "user"
    · rw [if_pos hu]
      exact ih c ht
    · rw [if_neg hu, ih (dSet c kv.1 kv.2) ht]
      exact dGet?_dSet_ne c kv.1 k kv.2 (Ne.symm hk)

theorem dGet?_mergeNonUser_of_get (c p : Dict) (k : String) (v : JVal)
    (hnd : (p.map Prod.fst).Nodup) (hget : dGet? p k = some v) (hk : k ≠ "user") :
    dGet? (mergeNonUser c p) k = some v := by
  induction p generalizing c with
  | nil => simp [dGet?_nil] at hget
  | cons kv t ih =>
    simp only [List.map_cons, List.nodup_cons] at hnd
    rw [mergeNonUser_cons]
    by_cases hh : kv.1 = k
    · rw [dGet?_cons, if_pos hh] at hget
      have hv : kv.2 = v := Option.some.inj hget
      rw [if_neg (fun hu => hk (hh.symm.trans hu))]
      rw [dGet?_mergeNonUser_not_has _ t k
        (dHasKey_eq_false_of_not_mem t k (hh ▸ hnd.1))]
      subst hh
      subst hv
      exact dGet?_dSet_self c kv.1 kv.2
    · rw [dGet?_cons, if_neg hh] at hget
      by_cases hu : kv.1 = "user"
      · rw [if_pos hu]
        exact ih c hnd.2 hget
      · rw [if_neg hu]
        exact ih (dSet c kv.1 kv.2) hnd.2 hget

theorem dGet?_normalizeAddTime_ne (d : Dict) (k : String) (h : k ≠ "add_time") :
    dGet? (normalizeAddTime d) k = dGet? d k := by
  unfold normalizeAddTime
  split
  · split
    · exact dGet?_dSet_ne d "add_time" k _ h
    · rfl
  · rfl

theorem dGet?_updatedRawData_user (c p : Dict) :
    dGet? (updatedRawData c p) "user" = some (dGetD c "user" (.obj [])) := by
  unfold updatedRawData mergeRawData
  rw [dGet?_normalizeAddTime_ne _ _ (by decide)]
  exact dGet?_dSet_self ..

theorem dGet?_updatedRawData_not_has (c p : Dict) (k : String)
    (h : dHasKey p k = false) (h1 : k ≠ "add_time") (h2 : k ≠ "user") :
    dGet? (updatedRawData c p) k = dGet? c k := by
  unfold updatedRawData mergeRawData
  rw [dGet?_normalizeAddTime_ne _ _ h1, dGet?_dSet_ne _ _ _ _ h2]
  exact dGet?_mergeNonUser_not_has c p k h

theorem dGet?_updatedRawData_of_get (c p : Dict) (k : String) (v : JVal)
    (hnd : (p.map Prod.fst).Nodup) (hget : dGet? p k = some v)
    (h1 : k ≠ "add_time") (h2 : k ≠ "user") :
    dGet? (updatedRawData c p) k = some v := by
  unfold updatedRawData mergeRawData
  rw [dGet?_normalizeAddTime_ne _ _ h1, dGet?_dSet_ne _ _ _ _ h2]
  exact dGet?_mergeNonUser_of_get c p k v hnd hget h2

theorem find?_map_update (l : List (Nat × Row)) (i : Nat) (f : Row → Row) :
    ((l.map (fun p => if p.1 == i then (p.1, f p.2) else p)).find?
        (fun p => p.1 == i)).map (fun p => p.2)
      = ((l.find? (fun p => p.1 == i)).map (fun p => p.2)).map f := by
  induction l with
  | nil => rfl
  | cons p t ih =>
    by_cases h : p.1 = i
    · simp [List.find?_cons_of_pos, h]
    · simp only [List.map_cons]
      rw [show (if p.1 == i then (p.1, f p.2) else p) = p by simp [h]]
      rw [List.find?_cons_of_neg _ (by simp [h]), List.find?_cons_of_neg _ (by simp [h])]
      exact ih

theorem DB.find?_setRow_self (db : DB) (i : Nat) (f : Row → Row) :
    (db.setRow i f).find? i = (db.find? i).map f := by
  obtain ⟨rows, nid⟩ := db
  simpa [DB.setRow, DB.find?] using find?_map_update rows i f

theorem find?_append_fresh (l : List (Nat × Row)) (i : Nat) (r : Row)
    (h : l.all (fun p => p.1 != i) = true) :
    (l ++ [(i, r)]).find? (fun p => p.1 == i) = some (i, r) := by
  induction l with
  | nil => simp [List.find?]
  | cons p t ih =>
    simp only [List.all_cons, Bool.and_eq_true, bne_iff_ne] at h
    rw [List.cons_append, List.find?_cons_of_neg _ (by simp [h.1])]
    exact ih (by simpa using h.2)

theorem DB.find?_add_pereval (db : DB) (data : Dict) (now : String)
    (h : db.rows.all (fun p => p.1 != db.nextId) = true) :
    (DatabaseManager.add_pereval db data now).1.find?
        (DatabaseManager.add_pereval db data now).2
      = some ⟨DatabaseManager.dateAddedOf data now, data,
          DatabaseManager.imagesColumnOf data, "new"⟩ := by
  simp only [DatabaseManager.add_pereval, DB.find?]
  rw [find?_append_fresh db.rows db.nextId _ h]
  rfl

theorem rejectedMsg_data_head (st : String) :
    (DatabaseManager.rejectedMsg st).data.head? = some 'Р' := by
  unfold DatabaseManager.rejectedMsg
  rw [String.data_append, List.head?_append_of_ne_nil]
  · decide
  · decide

theorem notFoundMsg_data_head (i : Nat) :
    (DatabaseManager.notFoundMsg i).data.head? = some 'П' := by
  unfold DatabaseManager.notFoundMsg
  rw [String.data_append, List.head?_append_of_ne_nil]
  · decide
  · decide

theorem rejectedMsg_ne_notFoundMsg (st : String) (i : Nat) :
    DatabaseManager.rejectedMsg st ≠ DatabaseManager.notFoundMsg i := by
  intro h
  have hh : (DatabaseManager.rejectedMsg st).data.head?
      = (DatabaseManager.notFoundMsg i).data.head? := by rw [h]
  rw [rejectedMsg_data_head, notFoundMsg_data_head] at hh
  exact absurd (Option.some.inj hh) (by decide)

theorem updateSelectAndMerge_some (db : DB) (i : Nat) (p : Dict) (row : Row)
    (h : db.find? i = some row) :
    DatabaseManager.updateSelectAndMerge db i p
      = if row.status ≠ "new" then .error (0, DatabaseManager.rejectedMsg row.status)
        else .ok (updatedRawData row.raw_data p, DatabaseManager.imagesColumnOf p) := by
  unfold DatabaseManager.updateSelectAndMerge
  rw [h]

theorem update_pereval_not_found (db : DB) (i : Nat) (p : Dict)
    (h : db.find? i = none) :
    DatabaseManager.update_pereval db i p = (db, 0, DatabaseManager.notFoundMsg i) := by
  unfold DatabaseManager.update_pereval DatabaseManager.updateSelectAndMerge
  rw [h]

theorem update_pereval_rejected (db : DB) (i : Nat) (p : Dict) (row : Row)
    (h : db.find? i = some row) (hst : row.status ≠ "new") :
    DatabaseManager.update_pereval db i p = (db, 0, DatabaseManager.rejectedMsg row.status) := by
  unfold DatabaseManager.update_pereval
  rw [updateSelectAndMerge_some db i p row h, if_pos hst]

theorem update_pereval_ok (db : DB) (i : Nat) (p : Dict) (row : Row)
    (h : db.find? i = some row) (hst : row.status = "new") :
    DatabaseManager.update_pereval db i p
      = (DatabaseManager.updateWrite db i (updatedRawData row.raw_data p)
          (DatabaseManager.imagesColumnOf p), 1, DatabaseManager.updatedMsg) := by
  unfold DatabaseManager.update_pereval
  rw [updateSelectAndMerge_some db i p row h, if_neg (not_not_intro hst)]

theorem find?_updateWrite_self (db : DB) (i : Nat) (raw : Dict) (img : JVal) :
    (DatabaseManager.updateWrite db i raw img).find? i
      = (db.find? i).map (fun r => { r with raw_data := raw, images := img }) := by
  unfold DatabaseManager.updateWrite
  exact DB.find?_setRow_self db i _

/-! ### Claims -/

/-- C1: for every stored document and every patch, the document produced by
the merge-update operation (`update_pereval` lines 196-208) has its `user`
object equal to the stored document's `user`, whatever the patch contains;
and after any `update_pereval` call the stored row's `user` is still the
original one — submitter data is never altered after creation. -/
theorem C1_submitter_immutable (db : DB) (i : Nat) (patch : Dict) (row : Row)
    (u : JVal) (hrow : db.find? i = some row)
    (hu : dGet? row.raw_data "user" = some u) :
    dGet? (updatedRawData row.raw_data patch) "user" = some u ∧
    ∃ row₂, ((DatabaseManager.update_pereval db i patch).1).find? i = some row₂ ∧
      dGet? row₂.raw_data "user" = some u := by
  have hmerge : dGet? (updatedRawData row.raw_data patch) "user" = some u := by
    rw [dGet?_updatedRawData_user]
    simp [dGetD, hu]
  refine ⟨hmerge, ?_⟩
  by_cases hst : row.status = "new"
  · rw [update_pereval_ok db i patch row hrow hst]
    refine ⟨⟨row.date_added, updatedRawData row.raw_data patch,
      DatabaseManager.imagesColumnOf patch, row.status⟩, ?_, hmerge⟩
    rw [find?_updateWrite_self, hrow]
    rfl
  · rw [update_pereval_rejected db i patch row hrow hst]
    exact ⟨row, hrow, hu⟩

/-- Witness for C1 at a concrete record and a patch that tries to change
the submitter. -/
theorem C1_submitter_immutable_witness :
    dGet? (updatedRawData [("title", JVal.s "Оригинальный"), ("user", wUser)]
        [("title", JVal.s "Обновленный"),
         ("user", JVal.obj [("email", JVal.s "changed@example.com")])]) "user"
      = some wUser ∧
    ∃ row₂, ((DatabaseManager.update_pereval
        ⟨[(1, ⟨"2024-01-01T00:00:00", [("title", JVal.s "Оригинальный"), ("user", wUser)],
            JVal.obj [("images", JVal.arr [])], "new"⟩)], 2⟩ 1
        [("title", JVal.s "Обновленный"),
         ("user", JVal.obj [("email", JVal.s "changed@example.com")])]).1).find? 1
        = some row₂ ∧
      dGet? row₂.raw_data "user" = some wUser :=
  C1_submitter_immutable
    ⟨[(1, ⟨"2024-01-01T00:00:00", [("title", JVal.s "Оригинальный"), ("user", wUser)],
        JVal.obj [("images", JVal.arr [])], "new"⟩)], 2⟩ 1
    [("title", JVal.s "Обновленный"),
     ("user", JVal.obj [("email", JVal.s "changed@example.com")])]
    ⟨"2024-01-01T00:00:00", [("title", JVal.s "Оригинальный"), ("user", wUser)],
      JVal.obj [("images", JVal.arr [])], "new"⟩
    wUser rfl rfl

/-- C3: for a record whose status is not `new`, `update_pereval` returns
the state-0 rejection carrying the record's actual current status in its
message (line 193), leaves the database unchanged, and that rejection
message differs from the not-found message returned when no record with
the id exists (line 187). -/
theorem C3_rejected_carries_status (db : DB) (i : Nat) (patch : Dict) (row : Row)
    (hrow : db.find? i = some row) (hst : row.status ≠ "new") :
    DatabaseManager.update_pereval db i patch
        = (db, 0, DatabaseManager.rejectedMsg row.status) ∧
    DatabaseManager.rejectedMsg row.status ≠ DatabaseManager.notFoundMsg i :=
  ⟨update_pereval_rejected db i patch row hrow hst,
   rejectedMsg_ne_notFoundMsg row.status i⟩

/-- Witness for C3 at a concrete record moderated to `pending`. -/
theorem C3_rejected_carries_status_witness :
    DatabaseManager.update_pereval
        ⟨[(1, ⟨"2024-01-01T00:00:00", [("title", JVal.s "Модерируемый"), ("user", wUser)],
            JVal.obj [("images", JVal.arr [])], "pending"⟩)], 2⟩ 1
        [("title", JVal.s "Попытка обновления")]
        = (⟨[(1, ⟨"2024-01-01T00:00:00", [("title", JVal.s "Модерируемый"), ("user", wUser)],
            JVal.obj [("images", JVal.arr [])], "pending"⟩)], 2⟩, 0,
           DatabaseManager.rejectedMsg "pending") ∧
    DatabaseManager.rejectedMsg "pending" ≠ DatabaseManager.notFoundMsg 1 :=
  C3_rejected_carries_status
    ⟨[(1, ⟨"2024-01-01T00:00:00", [("title", JVal.s "Модерируемый"), ("user", wUser)],
        JVal.obj [("images", JVal.arr [])], "pending"⟩)], 2⟩ 1
    [("title", JVal.s "Попытка обновления")]
    ⟨"2024-01-01T00:00:00", [("title", JVal.s "Модерируемый"), ("user", wUser)],
      JVal.obj [("images", JVal.arr [])], "pending"⟩
    rfl (by decide)

/-- C2: the status check and the write of `update_pereval` are NOT one
atomic conditional operation: the check is a separate `SELECT` (line 183)
and the write an `UPDATE ... WHERE id = %s` with no status condition
(lines 230-235).  Run against a record that starts as `new`, with an
external moderation write to `accepted` interleaved between the two round
trips (exactly the moderation write the repository's own tests perform),
the write still succeeds: the final row has status `accepted` but carries
the late edit's document, so the claimed property — the write happens only
if the status is `new` at the instant of the write — is false. -/
theorem C2_check_then_write_race :
    ∃ raw img,
      DatabaseManager.updateSelectAndMerge
          ⟨[(1, ⟨"2024-01-01T00:00:00",
              [("title", JVal.s "A"), ("user", wUser)],
              JVal.obj [("images", JVal.arr [])], "new"⟩)], 2⟩ 1
          [("title", JVal.s "B")] = .ok (raw, img) ∧
      ∃ row₂,
        (DatabaseManager.updateWrite
            (setStatus ⟨[(1, ⟨"2024-01-01T00:00:00",
                [("title", JVal.s "A"), ("user", wUser)],
                JVal.obj [("images", JVal.arr [])], "new"⟩)], 2⟩ 1 "accepted")
            1 raw img).find? 1 = some row₂ ∧
        row₂.status = "accepted" ∧
        dGet? row₂.raw_data "title" = some (JVal.s "B") := by
  refine ⟨_, _, rfl, _, rfl, rfl, rfl⟩

/-- C4 is violated by the code: updating a `new` record with a patch that
contains neither `images` nor a fresh `add_time` (here `patch =
{"title": "B"}`) still rewrites the image-list column to the empty list
(line 226-227 uses `new_data.get('images', [])`) and rewrites the
document's `add_time` from `2024-06-30T15:00:00Z` to
`2024-06-30T15:00:00+00:00` (lines 214-218), so fields absent from the
patch are not byte-for-byte preserved. -/
theorem C4_frame_counterexample :
    ∃ row₂,
      ((DatabaseManager.update_pereval
          ⟨[(1, ⟨"2024-06-30T15:00:00",
              [("title", JVal.s "A"), ("add_time", JVal.s "2024-06-30T15:00:00Z"),
               ("user", wUser), ("images", JVal.arr [wImage])],
              JVal.obj [("images", JVal.arr [wImage])], "new"⟩)], 2⟩ 1
          [("title", JVal.s "B")]).1).find? 1 = some row₂ ∧
      row₂.images = JVal.obj [("images", JVal.arr [])] ∧
      JVal.obj [("images", JVal.arr [])] ≠ JVal.obj [("images", JVal.arr [wImage])] ∧
      dGet? row₂.raw_data "add_time" = some (JVal.s "2024-06-30T15:00:00+00:00") ∧
      ("2024-06-30T15:00:00+00:00" : String) ≠ "2024-06-30T15:00:00Z" := by
  refine ⟨_, rfl, rfl, by simp [wImage], rfl, by decide⟩

/-- C4 (amended): after a successful update of a `new` record, every
document field other than `add_time` and `user` that is not present in the
patch keeps its exact stored value, and `date_added` and `status` are
untouched; but `add_time` is re-normalized even when absent from the
patch, and the image-list column is rewritten to the patch's image list
(the empty list when the patch has none). -/
theorem C4_frame_amended (db : DB) (i : Nat) (patch : Dict) (row : Row) (k : String)
    (hrow : db.find? i = some row) (hst : row.status = "new")
    (hk : dHasKey patch k = false) (h1 : k ≠ "add_time") (h2 : k ≠ "user") :
    ∃ row₂, ((DatabaseManager.update_pereval db i patch).1).find? i = some row₂ ∧
      dGet? row₂.raw_data k = dGet? row.raw_data k ∧
      row₂.images = DatabaseManager.imagesColumnOf patch ∧
      row₂.date_added = row.date_added ∧ row₂.status = row.status := by
  rw [update_pereval_ok db i patch row hrow hst]
  refine ⟨⟨row.date_added, updatedRawData row.raw_data patch,
    DatabaseManager.imagesColumnOf patch, row.status⟩, ?_, ?_, rfl, rfl, rfl⟩
  · rw [find?_updateWrite_self, hrow]
    rfl
  · exact dGet?_updatedRawData_not_has row.raw_data patch k hk h1 h2

/-- Witness for the amended C4 at a concrete record: the `beautyTitle`
field, absent from the patch, keeps its stored value. -/
theorem C4_frame_amended_witness :
    ∃ row₂, ((DatabaseManager.update_pereval
        ⟨[(1, ⟨"2024-01-01T00:00:00",
            [("beautyTitle", JVal.s "пер. "), ("title", JVal.s "A"), ("user", wUser)],
            JVal.obj [("images", JVal.arr [])], "new"⟩)], 2⟩ 1
        [("title", JVal.s "B")]).1).find? 1 = some row₂ ∧
      dGet? row₂.raw_data "beautyTitle"
        = dGet? [("beautyTitle", JVal.s "пер. "), ("title", JVal.s "A"), ("user", wUser)]
            "beautyTitle" ∧
      row₂.images = DatabaseManager.imagesColumnOf [("title", JVal.s "B")] ∧
      row₂.date_added = "2024-01-01T00:00:00" ∧ row₂.status = "new" :=
  C4_frame_amended
    ⟨[(1, ⟨"2024-01-01T00:00:00",
        [("beautyTitle", JVal.s "пер. "), ("title", JVal.s "A"), ("user", wUser)],
        JVal.obj [("images", JVal.arr [])], "new"⟩)], 2⟩ 1
    [("title", JVal.s "B")]
    ⟨"2024-01-01T00:00:00",
      [("beautyTitle", JVal.s "пер. "), ("title", JVal.s "A"), ("user", wUser)],
      JVal.obj [("images", JVal.arr [])], "new"⟩
    "beautyTitle" rfl rfl rfl (by decide) (by decide)

/-- C5 is violated by the code: a successful update whose patch has no
`images` field rewrites the image-list column to the empty list (lines
226-227) while the merged document keeps the previously stored image list,
so the column and `document.images` are no longer identical after that
write. -/
theorem C5_images_sync_counterexample :
    ∃ row₂,
      ((DatabaseManager.update_pereval
          ⟨[(1, ⟨"2024-01-01T00:00:00",
              [("title", JVal.s "A"), ("user", wUser), ("images", JVal.arr [wImage])],
              JVal.obj [("images", JVal.arr [wImage])], "new"⟩)], 2⟩ 1
          [("title", JVal.s "B")]).1).find? 1 = some row₂ ∧
      imagesColumnList row₂ = some (JVal.arr []) ∧
      dGet? row₂.raw_data "images" = some (JVal.arr [wImage]) ∧
      JVal.arr ([] : List JVal) ≠ JVal.arr [wImage] := by
  refine ⟨_, rfl, rfl, rfl, by simp [wImage]⟩

/-- C5 (amended): the image-list column and the document's image list are
identical after a successful create whose document carries an `images`
field, and after a successful update whose patch carries an `images`
field; an update whose patch has no `images` field instead resets the
column to the empty list while the document keeps its previous list. -/
theorem C5_images_sync_amended (db : DB) (data patch : Dict) (now : String)
    (i : Nat) (row : Row) (imgs imgs2 : JVal)
    (hfresh : db.rows.all (fun p => p.1 != db.nextId) = true)
    (hc : dGet? data "images" = some imgs)
    (hrow : db.find? i = some row) (hst : row.status = "new")
    (hnd : (patch.map Prod.fst).Nodup)
    (hp : dGet? patch "images" = some imgs2) :
    (∃ r₂, (DatabaseManager.add_pereval db data now).1.find?
        (DatabaseManager.add_pereval db data now).2 = some r₂ ∧
      imagesColumnList r₂ = some imgs ∧ dGet? r₂.raw_data "images" = some imgs) ∧
    (∃ r₃, ((DatabaseManager.update_pereval db i patch).1).find? i = some r₃ ∧
      imagesColumnList r₃ = some imgs2 ∧ dGet? r₃.raw_data "images" = some imgs2) := by
  constructor
  · refine ⟨_, DB.find?_add_pereval db data now hfresh, ?_, hc⟩
    unfold imagesColumnList DatabaseManager.imagesColumnOf
    simp [dGet?_cons, dGetD, hc]
  · rw [update_pereval_ok db i patch row hrow hst]
    refine ⟨⟨row.date_added, updatedRawData row.raw_data patch,
      DatabaseManager.imagesColumnOf patch, row.status⟩, ?_, ?_, ?_⟩
    · rw [find?_updateWrite_self, hrow]
      rfl
    · unfold imagesColumnList DatabaseManager.imagesColumnOf
      simp [dGet?_cons, dGetD, hp]
    · exact dGet?_updatedRawData_of_get row.raw_data patch "images" imgs2 hnd hp
        (by decide) (by decide)

/-- Witness for the amended C5: a concrete create carrying one image and a
concrete update whose patch replaces the list with a new one. -/
theorem C5_images_sync_amended_witness :
    (∃ r₂, (DatabaseManager.add_pereval
        ⟨[(1, ⟨"2024-01-01T00:00:00", [("title", JVal.s "A"), ("user", wUser)],
            JVal.obj [("images", JVal.arr [])], "new"⟩)], 2⟩
        [("title", JVal.s "C"), ("user", wUser), ("images", JVal.arr [wImage])]
        "2024-01-01T00:00:00").1.find?
        (DatabaseManager.add_pereval
        ⟨[(1, ⟨"2024-01-01T00:00:00", [("title", JVal.s "A"), ("user", wUser)],
            JVal.obj [("images", JVal.arr [])], "new"⟩)], 2⟩
        [("title", JVal.s "C"), ("user", wUser), ("images", JVal.arr [wImage])]
        "2024-01-01T00:00:00").2 = some r₂ ∧
      imagesColumnList r₂ = some (JVal.arr [wImage]) ∧
      dGet? r₂.raw_data "images" = some (JVal.arr [wImage])) ∧
    (∃ r₃, ((DatabaseManager.update_pereval
        ⟨[(1, ⟨"2024-01-01T00:00:00", [("title", JVal.s "A"), ("user", wUser)],
            JVal.obj [("images", JVal.arr [])], "new"⟩)], 2⟩ 1
        [("title", JVal.s "B"), ("images", JVal.arr [wImage])]).1).find? 1 = some r₃ ∧
      imagesColumnList r₃ = some (JVal.arr [wImage]) ∧
      dGet? r₃.raw_data "images" = some (JVal.arr [wImage])) :=
  C5_images_sync_amended
    ⟨[(1, ⟨"2024-01-01T00:00:00", [("title", JVal.s "A"), ("user", wUser)],
        JVal.obj [("images", JVal.arr [])], "new"⟩)], 2⟩
    [("title", JVal.s "C"), ("user", wUser), ("images", JVal.arr [wImage])]
    [("title", JVal.s "B"), ("images", JVal.arr [wImage])]
    "2024-01-01T00:00:00" 1
    ⟨"2024-01-01T00:00:00", [("title", JVal.s "A"), ("user", wUser)],
      JVal.obj [("images", JVal.arr [])], "new"⟩
    (JVal.arr [wImage]) (JVal.arr [wImage])
    (by decide) rfl rfl rfl (by decide) rfl

/-- C6 is violated by the code: the merge loop (lines 202-204) assigns
each patch field wholesale, so patching a record whose stored coordinates
are `{latitude, longitude, height}` with `coords = {height: "2600"}`
leaves merged coordinates equal to the patch object alone — the stored
`latitude` is gone rather than preserved. -/
theorem C6_per_key_merge_counterexample :
    ∃ row₂,
      ((DatabaseManager.update_pereval
          ⟨[(1, ⟨"2024-01-01T00:00:00",
              [("user", wUser),
               ("coords", JVal.obj [("latitude", JVal.s "46.0"),
                  ("longitude", JVal.s "7.0"), ("height", JVal.s "2500")])],
              JVal.obj [("images", JVal.arr [])], "new"⟩)], 2⟩ 1
          [("coords", JVal.obj [("height", JVal.s "2600")])]).1).find? 1 = some row₂ ∧
      dGet? row₂.raw_data "coords" = some (JVal.obj [("height", JVal.s "2600")]) ∧
      (match dGet? row₂.raw_data "coords" with
       | some (JVal.obj c) => dGet? c "latitude"
       | _ => none) = none := by
  refine ⟨_, rfl, rfl, rfl⟩

/-- C6 (amended): nested structured fields are replaced wholesale, not
merged per key: when the patch supplies `coords` (resp. `level`), the
merged document's `coords` (resp. `level`) is exactly the patch's object,
and stored nested keys absent from the patch object are lost. -/
theorem C6_nested_replace_amended (current patch : Dict)
    (hnd : (patch.map Prod.fst).Nodup) :
    (∀ v, dGet? patch "coords" = some v →
      dGet? (updatedRawData current patch) "coords" = some v) ∧
    (∀ w, dGet? patch "level" = some w →
      dGet? (updatedRawData current patch) "level" = some w) := by
  constructor
  · intro v hv
    exact dGet?_updatedRawData_of_get current patch "coords" v hnd hv (by decide) (by decide)
  · intro w hw
    exact dGet?_updatedRawData_of_get current patch "level" w hnd hw (by decide) (by decide)

/-- Witness for the amended C6 at the spec's concrete scenario (patching
only the height replaces the whole coordinates object). -/
theorem C6_nested_replace_amended_witness :
    dGet? (updatedRawData
        [("coords", JVal.obj [("latitude", JVal.s "46.0"), ("longitude", JVal.s "7.0"),
            ("height", JVal.s "2500")]),
         ("level", JVal.obj [("summer", JVal.s "1А")])]
        [("coords", JVal.obj [("height", JVal.s "2600")]),
         ("level", JVal.obj [("summer", JVal.s "1Б")])]) "coords"
      = some (JVal.obj [("height", JVal.s "2600")]) ∧
    dGet? (updatedRawData
        [("coords", JVal.obj [("latitude", JVal.s "46.0"), ("longitude", JVal.s "7.0"),
            ("height", JVal.s "2500")]),
         ("level", JVal.obj [("summer", JVal.s "1А")])]
        [("coords", JVal.obj [("height", JVal.s "2600")]),
         ("level", JVal.obj [("summer", JVal.s "1Б")])]) "level"
      = some (JVal.obj [("summer", JVal.s "1Б")]) :=
  ⟨(C6_nested_replace_amended
      [("coords", JVal.obj [("latitude", JVal.s "46.0"), ("longitude", JVal.s "7.0"),
          ("height", JVal.s "2500")]),
       ("level", JVal.obj [("summer", JVal.s "1А")])]
      [("coords", JVal.obj [("height", JVal.s "2600")]),
       ("level", JVal.obj [("summer", JVal.s "1Б")])] (by decide)).1 _ rfl,
   (C6_nested_replace_amended
      [("coords", JVal.obj [("latitude", JVal.s "46.0"), ("longitude", JVal.s "7.0"),
          ("height", JVal.s "2500")]),
       ("level", JVal.obj [("summer", JVal.s "1А")])]
      [("coords", JVal.obj [("height", JVal.s "2600")]),
       ("level", JVal.obj [("summer", JVal.s "1Б")])] (by decide)).2 _ rfl⟩

/-- C7 at the service layer is broken by a call-signature mismatch:
`submit_data` always returns the 500 error response and never an id, so
the `fetch(submit(doc))` composition cannot even start there; at the store
layer the claim's content holds: `add_pereval` followed by
`get_pereval_by_id` on the returned id yields the submitted document
unchanged (so its submitter, coordinates and title equal those submitted)
with status `new`. -/
theorem C7_submit_fetch_roundtrip (db : DB) (d data : Dict) (now : String)
    (hfresh : db.rows.all (fun p => p.1 != db.nextId) = true) :
    MainApi.submit_data db d
        = (db, .httpError 500 (.obj [("state", .n 0),
            ("message", .s "Что-то пошло не так на сервере.")])) ∧
    ∃ pd, DatabaseManager.get_pereval_by_id
        (DatabaseManager.add_pereval db data now).1
        (DatabaseManager.add_pereval db data now).2 = some pd ∧
      dGet? pd "raw_data" = some (.obj data) ∧
      dGet? pd "status" = some (.s "new") ∧
      (∀ raw, dGet? pd "raw_data" = some (.obj raw) →
        dGet? raw "user" = dGet? data "user" ∧
        dGet? raw "coords" = dGet? data "coords" ∧
        dGet? raw "title" = dGet? data "title") := by
  refine ⟨rfl, DatabaseManager.perevalDataOf db.nextId
    ⟨DatabaseManager.dateAddedOf data now, data,
      DatabaseManager.imagesColumnOf data, "new"⟩, ?_, rfl, rfl, ?_⟩
  · unfold DatabaseManager.get_pereval_by_id
    rw [DB.find?_add_pereval db data now hfresh]
    rfl
  · intro raw hraw
    obtain rfl : data = raw := JVal.obj.inj (Option.some.inj hraw)
    exact ⟨rfl, rfl, rfl⟩

/-- Witness for C7 at a concrete submission over an empty table. -/
theorem C7_submit_fetch_roundtrip_witness :
    MainApi.submit_data ⟨[], 1⟩ [("title", JVal.s "Тест перевал")]
        = (⟨[], 1⟩, .httpError 500 (.obj [("state", .n 0),
            ("message", .s "Что-то пошло не так на сервере.")])) ∧
    ∃ pd, DatabaseManager.get_pereval_by_id
        (DatabaseManager.add_pereval ⟨[], 1⟩
          [("title", JVal.s "Тест перевал"), ("user", wUser),
           ("coords", JVal.obj [("latitude", JVal.s "10.0"), ("longitude", JVal.s "20.0"),
              ("height", JVal.s "1000")])] "2024-01-01T00:00:00").1
        (DatabaseManager.add_pereval ⟨[], 1⟩
          [("title", JVal.s "Тест перевал"), ("user", wUser),
           ("coords", JVal.obj [("latitude", JVal.s "10.0"), ("longitude", JVal.s "20.0"),
              ("height", JVal.s "1000")])] "2024-01-01T00:00:00").2 = some pd ∧
      dGet? pd "raw_data" = some (.obj
          [("title", JVal.s "Тест перевал"), ("user", wUser),
           ("coords", JVal.obj [("latitude", JVal.s "10.0"), ("longitude", JVal.s "20.0"),
              ("height", JVal.s "1000")])]) ∧
      dGet? pd "status" = some (.s "new") ∧
      (∀ raw, dGet? pd "raw_data" = some (.obj raw) →
        dGet? raw "user" = dGet?
          [("title", JVal.s "Тест перевал"), ("user", wUser),
           ("coords", JVal.obj [("latitude", JVal.s "10.0"), ("longitude", JVal.s "20.0"),
              ("height", JVal.s "1000")])] "user" ∧
        dGet? raw "coords" = dGet?
          [("title", JVal.s "Тест перевал"), ("user", wUser),
           ("coords", JVal.obj [("latitude", JVal.s "10.0"), ("longitude", JVal.s "20.0"),
              ("height", JVal.s "1000")])] "coords" ∧
        dGet? raw "title" = dGet?
          [("title", JVal.s "Тест перевал"), ("user", wUser),
           ("coords", JVal.obj [("latitude", JVal.s "10.0"), ("longitude", JVal.s "20.0"),
              ("height", JVal.s "1000")])] "title") :=
  C7_submit_fetch_roundtrip ⟨[], 1⟩ [("title", JVal.s "Тест перевал")]
    [("title", JVal.s "Тест перевал"), ("user", wUser),
     ("coords", JVal.obj [("latitude", JVal.s "10.0"), ("longitude", JVal.s "20.0"),
        ("height", JVal.s "1000")])] "2024-01-01T00:00:00" (by decide)

/-- C8 is broken by a key mismatch: the store returns the image column
under the key `images_json` (`db_manager.py` line 153) while the handler
reads `pereval_data.get('images', [])` (`main.py` line 152), so the
response's image list is always empty instead of the reshaped stored list;
the reshaping-with-skipping logic itself (`formatImages`) would produce
the nonempty reshaped list if it were given the stored value. -/
theorem C8_fetch_images_always_empty :
    (∃ pd, DatabaseManager.get_pereval_by_id
        ⟨[(1, ⟨"2024-01-01T00:00:00",
            [("title", JVal.s "Тест"), ("user", wUser), ("images", JVal.arr [wImage])],
            JVal.obj [("images", JVal.arr [wImage])], "new"⟩)], 2⟩ 1 = some pd ∧
      dGet? pd "images" = none ∧
      dGet? pd "images_json" = some (JVal.obj [("images", JVal.arr [wImage])])) ∧
    (∃ rd, MainApi.get_pereval_by_id
        ⟨[(1, ⟨"2024-01-01T00:00:00",
            [("title", JVal.s "Тест"), ("user", wUser), ("images", JVal.arr [wImage])],
            JVal.obj [("images", JVal.arr [wImage])], "new"⟩)], 2⟩ 1 = .ok rd ∧
      dGet? rd "images" = some (JVal.arr [])) ∧
    MainApi.formatImages (JVal.arr [wImage])
      = [JVal.obj [("data", JVal.s "base64_data_1"), ("title", JVal.s "Фото 1")]] ∧
    (JVal.arr [] : JVal)
      ≠ JVal.arr [JVal.obj [("data", JVal.s "base64_data_1"), ("title", JVal.s "Фото 1")]] := by
  refine ⟨⟨_, rfl, rfl, rfl⟩, ⟨_, rfl, rfl⟩, rfl, by simp⟩

/-- C9: the email lookup returns exactly the rows whose document's
submitter email equals the argument (shaped like a point-lookup result),
and an empty list — not a not-found error — when nothing matches.  The
well-formedness hypothesis says every stored `user.email`, when present,
is a JSON string, which is true of everything the validation layer admits;
it bridges the SQL `->> 'email'` text extraction and the spec-side
string-equality predicate. -/
theorem C9_lookup_by_email_exact (db : DB) (email : String) (pd : Dict)
    (hWF : db.rows.all (fun p => rowEmailWellFormed p.2) = true) :
    (pd ∈ DatabaseManager.get_perevals_by_email db email ↔
      ∃ p, p ∈ db.rows ∧ submitterEmailIs p.2 email = true ∧
        pd = DatabaseManager.perevalDataOf p.1 p.2) ∧
    (db.rows.all (fun p => !submitterEmailIs p.2 email) = true →
      DatabaseManager.get_perevals_by_email db email = []) := by
  have hq : ∀ p, p ∈ db.rows →
      (DatabaseManager.userEmailText p.2 == some email) = submitterEmailIs p.2 email := by
    intro p hp
    have hwf : rowEmailWellFormed p.2 = true := by
      have := List.all_eq_true.mp hWF p hp
      simpa using this
    unfold rowEmailWellFormed at hwf
    unfold DatabaseManager.userEmailText submitterEmailIs
    cases h1 : dGet? p.2.raw_data "user" with
    | none => rfl
    | some v =>
      cases v with
      | s _ => rfl
      | n _ => rfl
      | null => rfl
      | arr _ => rfl
      | obj u =>
        rw [h1] at hwf
        have hwf2 : (match dGet? u "email" with
            | some (JVal.s _) => true
            | some _ => false
            | none => true) = true := hwf
        show ((dGet? u "email").bind jvalAsText == some email)
            = (match dGet? u "email" with
               | some (JVal.s e) => e == email
               | _ => false)
        cases h2 : dGet? u "email" with
        | none => rfl
        | some w =>
          rw [h2] at hwf2
          cases w with
          | s e => rfl
          | n _ => exact absurd (show false = true from hwf2) (by decide)
          | null => exact absurd (show false = true from hwf2) (by decide)
          | arr _ => exact absurd (show false = true from hwf2) (by decide)
          | obj _ => exact absurd (show false = true from hwf2) (by decide)
  constructor
  · unfold DatabaseManager.get_perevals_by_email
    rw [List.mem_map]
    constructor
    · rintro ⟨x, hx, rfl⟩
      rw [List.mem_filter] at hx
      refine ⟨x, hx.1, ?_, rfl⟩
      rw [← hq x hx.1]
      exact hx.2
    · rintro ⟨p, hp, hmatch, rfl⟩
      exact ⟨p, List.mem_filter.mpr ⟨hp, by rw [hq p hp]; exact hmatch⟩, rfl⟩
  · intro hnone
    unfold DatabaseManager.get_perevals_by_email
    have hfil : db.rows.filter
        (fun p => DatabaseManager.userEmailText p.2 == some email) = [] := by
      rw [List.filter_eq_nil_iff]
      intro p hp
      rw [hq p hp]
      have := List.all_eq_true.mp hnone p hp
      simpa using this
    rw [hfil]
    rfl

/-- Witness for C9 on a concrete three-row table (two records for one
email, one for another): membership is characterized and the lookup for an
unused email is empty. -/
theorem C9_lookup_by_email_exact_witness :
    (DatabaseManager.perevalDataOf 1
        ⟨"2024-01-01T00:00:00",
          [("title", JVal.s "Юзер1_1"),
           ("user", JVal.obj [("email", JVal.s "user1@test.com")])],
          JVal.obj [("images", JVal.arr [])], "new"⟩
      ∈ DatabaseManager.get_perevals_by_email
        ⟨[(1, ⟨"2024-01-01T00:00:00",
            [("title", JVal.s "Юзер1_1"),
             ("user", JVal.obj [("email", JVal.s "user1@test.com")])],
            JVal.obj [("images", JVal.arr [])], "new"⟩),
          (2, ⟨"2024-01-01T00:00:00",
            [("title", JVal.s "Юзер1_2"),
             ("user", JVal.obj [("email", JVal.s "user1@test.com")])],
            JVal.obj [("images", JVal.arr [])], "new"⟩),
          (3, ⟨"2024-01-01T00:00:00",
            [("title", JVal.s "Юзер2_1"),
             ("user", JVal.obj [("email", JVal.s "user2@test.com")])],
            JVal.obj [("images", JVal.arr [])], "new"⟩)], 4⟩ "nonexistent@test.com" ↔
      ∃ p, p ∈ ([(1, (⟨"2024-01-01T00:00:00",
            [("title", JVal.s "Юзер1_1"),
             ("user", JVal.obj [("email", JVal.s "user1@test.com")])],
            JVal.obj [("images", JVal.arr [])], "new"⟩ : Row)),
          (2, ⟨"2024-01-01T00:00:00",
            [("title", JVal.s "Юзер1_2"),
             ("user", JVal.obj [("email", JVal.s "user1@test.com")])],
            JVal.obj [("images", JVal.arr [])], "new"⟩),
          (3, ⟨"2024-01-01T00:00:00",
            [("title", JVal.s "Юзер2_1"),
             ("user", JVal.obj [("email", JVal.s "user2@test.com")])],
            JVal.obj [("images", JVal.arr [])], "new"⟩)] : List (Nat × Row)) ∧
        submitterEmailIs p.2 "nonexistent@test.com" = true ∧
        DatabaseManager.perevalDataOf 1
          ⟨"2024-01-01T00:00:00",
            [("title", JVal.s "Юзер1_1"),
             ("user", JVal.obj [("email", JVal.s "user1@test.com")])],
            JVal.obj [("images", JVal.arr [])], "new"⟩
          = DatabaseManager.perevalDataOf p.1 p.2) ∧
    (([(1, (⟨"2024-01-01T00:00:00",
          [("title", JVal.s "Юзер1_1"),
           ("user", JVal.obj [("email", JVal.s "user1@test.com")])],
          JVal.obj [("images", JVal.arr [])], "new"⟩ : Row)),
       (2, ⟨"2024-01-01T00:00:00",
          [("title", JVal.s "Юзер1_2"),
           ("user", JVal.obj [("email", JVal.s "user1@test.com")])],
          JVal.obj [("images", JVal.arr [])], "new"⟩),
       (3, ⟨"2024-01-01T00:00:00",
          [("title", JVal.s "Юзер2_1"),
           ("user", JVal.obj [("email", JVal.s "user2@test.com")])],
          JVal.obj [("images", JVal.arr [])], "new"⟩)] : List (Nat × Row)).all
        (fun p => !submitterEmailIs p.2 "nonexistent@test.com") = true →
      DatabaseManager.get_perevals_by_email
        ⟨[(1, ⟨"2024-01-01T00:00:00",
            [("title", JVal.s "Юзер1_1"),
             ("user", JVal.obj [("email", JVal.s "user1@test.com")])],
            JVal.obj [("images", JVal.arr [])], "new"⟩),
          (2, ⟨"2024-01-01T00:00:00",
            [("title", JVal.s "Юзер1_2"),
             ("user", JVal.obj [("email", JVal.s "user1@test.com")])],
            JVal.obj [("images", JVal.arr [])], "new"⟩),
          (3, ⟨"2024-01-01T00:00:00",
            [("title", JVal.s "Юзер2_1"),
             ("user", JVal.obj [("email", JVal.s "user2@test.com")])],
            JVal.obj [("images", JVal.arr [])], "new"⟩)], 4⟩ "nonexistent@test.com" = []) :=
  C9_lookup_by_email_exact
    ⟨[(1, ⟨"2024-01-01T00:00:00",
        [("title", JVal.s "Юзер1_1"),
         ("user", JVal.obj [("email", JVal.s "user1@test.com")])],
        JVal.obj [("images", JVal.arr [])], "new"⟩),
      (2, ⟨"2024-01-01T00:00:00",
        [("title", JVal.s "Юзер1_2"),
         ("user", JVal.obj [("email", JVal.s "user1@test.com")])],
        JVal.obj [("images", JVal.arr [])], "new"⟩),
      (3, ⟨"2024-01-01T00:00:00",
        [("title", JVal.s "Юзер2_1"),
         ("user", JVal.obj [("email", JVal.s "user2@test.com")])],
        JVal.obj [("images", JVal.arr [])], "new"⟩)], 4⟩ "nonexistent@test.com"
    (DatabaseManager.perevalDataOf 1
      ⟨"2024-01-01T00:00:00",
        [("title", JVal.s "Юзер1_1"),
         ("user", JVal.obj [("email", JVal.s "user1@test.com")])],
        JVal.obj [("images", JVal.arr [])], "new"⟩)
    (by decide)

theorem patch_pereval_some (db : DB) (i : Nat) (patch : Dict) (row : Row)
    (hrow : db.find? i = some row) :
    MainApi.patch_pereval db i patch
      = (if row.status ≠ "new" then (db, .ok 0 (MainApi.statusRejectMsg row.status))
         else if dHasKey patch "user" then
           (db, .httpError 400 0 "Изменение пользовательских данных запрещено.")
         else (db, .httpError 500 0 "Внутренняя ошибка сервера при обновлении перевала.")) := by
  unfold MainApi.patch_pereval
  have hpd : DatabaseManager.get_pereval_by_id db i
      = some (DatabaseManager.perevalDataOf i row) := by
    unfold DatabaseManager.get_pereval_by_id
    rw [hrow]
    rfl
  rw [hpd]
  rfl

/-- C10 is violated for non-`new` records: the PATCH handler checks the
status gate (line 210) before the submitter check (line 224), so patching
an `accepted` record with a patch that contains `user` yields the plain
state-0 status rejection, not the HTTP 400 caller-error rejection the
claim requires for records of any status (the record is still left
unchanged). -/
theorem C10_user_patch_counterexample :
    MainApi.patch_pereval
        ⟨[(1, ⟨"2024-01-01T00:00:00", [("title", JVal.s "A"), ("user", wUser)],
            JVal.obj [("images", JVal.arr [])], "accepted"⟩)], 2⟩ 1
        [("user", JVal.obj [("email", JVal.s "changed@example.com")])]
      = (⟨[(1, ⟨"2024-01-01T00:00:00", [("title", JVal.s "A"), ("user", wUser)],
            JVal.obj [("images", JVal.arr [])], "accepted"⟩)], 2⟩,
         .ok 0 (MainApi.statusRejectMsg "accepted")) ∧
    MainApi.PatchResult.ok 0 (MainApi.statusRejectMsg "accepted")
      ≠ .httpError 400 0 "Изменение пользовательских данных запрещено." :=
  ⟨rfl, by decide⟩

/-- C10 (amended): a patch containing a `user` field is rejected before
any merge and the store is left unchanged for records of any status, but
the rejection is the HTTP 400 caller error only when the record's status
is `new`; for any other status the status gate fires first and the call
returns the plain state-0 status rejection instead. -/
theorem C10_user_patch_amended (db : DB) (i : Nat) (patch : Dict) (row : Row)
    (hrow : db.find? i = some row) (hu : dHasKey patch "user" = true) :
    (row.status = "new" →
      MainApi.patch_pereval db i patch
        = (db, .httpError 400 0 "Изменение пользовательских данных запрещено.")) ∧
    (row.status ≠ "new" →
      MainApi.patch_pereval db i patch
        = (db, .ok 0 (MainApi.statusRejectMsg row.status))) := by
  constructor
  · intro hst
    rw [patch_pereval_some db i patch row hrow,
      if_neg (not_not_intro hst), if_pos hu]
  · intro hst
    rw [patch_pereval_some db i patch row hrow, if_pos hst]

/-- Witness for the amended C10 at a concrete `new` record and a patch
that tries to change the submitter. -/
theorem C10_user_patch_amended_witness :
    ((⟨"2024-01-01T00:00:00", [("title", JVal.s "A"), ("user", wUser)],
        JVal.obj [("images", JVal.arr [])], "new"⟩ : Row).status = "new" →
      MainApi.patch_pereval
        ⟨[(1, ⟨"2024-01-01T00:00:00", [("title", JVal.s "A"), ("user", wUser)],
            JVal.obj [("images", JVal.arr [])], "new"⟩)], 2⟩ 1
        [("user", JVal.obj [("email", JVal.s "changed@example.com")])]
        = (⟨[(1, ⟨"2024-01-01T00:00:00", [("title", JVal.s "A"), ("user", wUser)],
            JVal.obj [("images", JVal.arr [])], "new"⟩)], 2⟩,
           .httpError 400 0 "Изменение пользовательских данных запрещено.")) ∧
    ((⟨"2024-01-01T00:00:00", [("title", JVal.s "A"), ("user", wUser)],
        JVal.obj [("images", JVal.arr [])], "new"⟩ : Row).status ≠ "new" →
      MainApi.patch_pereval
        ⟨[(1, ⟨"2024-01-01T00:00:00", [("title", JVal.s "A"), ("user", wUser)],
            JVal.obj [("images", JVal.arr [])], "new"⟩)], 2⟩ 1
        [("user", JVal.obj [("email", JVal.s "changed@example.com")])]
        = (⟨[(1, ⟨"2024-01-01T00:00:00", [("title", JVal.s "A"), ("user", wUser)],
            JVal.obj [("images", JVal.arr [])], "new"⟩)], 2⟩,
           .ok 0 (MainApi.statusRejectMsg "new"))) :=
  C10_user_patch_amended
    ⟨[(1, ⟨"2024-01-01T00:00:00", [("title", JVal.s "A"), ("user", wUser)],
        JVal.obj [("images", JVal.arr [])], "new"⟩)], 2⟩ 1
    [("user", JVal.obj [("email", JVal.s "changed@example.com")])]
    ⟨"2024-01-01T00:00:00", [("title", JVal.s "A"), ("user", wUser)],
      JVal.obj [("images", JVal.arr [])], "new"⟩
    rfl rfl
